import Mathlib

/-!
Verification development for the mikeio `DataArray` core (src/mikeio/dataarray.py).

The Python class wraps an N-dimensional numeric buffer together with a time
index, a tuple of dimension names, a geometry descriptor, an optional
per-(time, node) elevation array `zn`, and item metadata (name, EUM type,
EUM unit).  The definitions below are a shallow embedding of the parts of
`dataarray.py` that the verified properties refer to: construction and
validation (`__init__`, `_parse_dims`, `_guess_dims`, `_parse_geometry`,
`_parse_zn`, `_check_time_data_length`), positional selection (`isel` and the
time branch of `__getitem__`), `dropna`, `aggregate`, the comparison
operators, the binary math operators (`_apply_math_operation`,
`_keep_EUM_after_math_operation`) and `_is_compatible`.

Buffers are modelled by `NDArray`: a shape together with a flat row-major
data list, with `numpy.take` re-implemented by explicit index arithmetic.
The element type is a parameter (the verified properties are about shapes,
dimension names, metadata and control flow, never about floating-point
values), so witnesses evaluate the definitions on `Int` buffers.

Helpers of the repository that are not under src/ (the `DataUtilsMixin`
methods `_parse_axis`, `_time_by_agg_axis`, `_axis_to_spatial_axis`, and the
geometry classes' `isel` / `_get_nodes_and_table_for_elements`) are modelled
from the spec; each such definition carries a doc comment starting with
"Modelled from the spec:".
-/

namespace Mikeio

/-- EUM physical-quantity type of an item (external metadata catalog; only
the distinction between `Undefined` and concrete types matters here). -/
inductive EUMType where
  | Undefined
  | WaterLevel
  | Temperature
  | SignificantWaveHeight
deriving DecidableEq, Repr

/-- EUM unit of an item. -/
inductive EUMUnit where
  | undefined
  | meter
  | feet
  | degreeCelsius
deriving DecidableEq, Repr

/-- Item metadata triple, mirroring `ItemInfo` (name, type, unit).
`ItemInfo(name)` in Python defaults type and unit to undefined. -/
structure ItemInfo where
  name : String
  type : EUMType
  unit : EUMUnit
deriving DecidableEq, Repr

/-- The default item produced by `ItemInfo("NoName")` in `_parse_item`. -/
def defaultItem : ItemInfo := ⟨"NoName", EUMType.Undefined, EUMUnit.undefined⟩

/-- A dense N-dimensional array: a shape and the flat row-major buffer
(`numpy.ndarray` with `values.ravel()` as `data`). -/
structure NDArray (α : Type) where
  shape : List Nat
  data : List α
deriving DecidableEq, Repr

namespace NDArray

/-- Number of elements described by the shape. -/
def size (a : NDArray α) : Nat := a.shape.prod

/-- Embedding of `np.take(a, i, axis=axis)` with a scalar index: the
selected axis is removed; entry `(o, k)` of the result (outer index `o`,
inner index `k`) is entry `(o, i, k)` of `a`. -/
def takeScalar [Inhabited α] (a : NDArray α) (i : Nat) (axis : Nat) : NDArray α :=
  let inner := (a.shape.drop (axis + 1)).prod
  let axisLen := a.shape.getD axis 0
  { shape := a.shape.take axis ++ a.shape.drop (axis + 1)
    data := (List.range (a.shape.take axis).prod).map (fun o =>
      (List.range inner).map (fun k =>
        a.data.getD (o * (axisLen * inner) + i * inner + k) default)) |>.flatten }

/-- Embedding of `np.take(a, idx, axis=axis)` with an index list: the
selected axis keeps position but gets length `idx.length`. -/
def takeList [Inhabited α] (a : NDArray α) (idx : List Nat) (axis : Nat) : NDArray α :=
  let inner := (a.shape.drop (axis + 1)).prod
  let axisLen := a.shape.getD axis 0
  { shape := a.shape.take axis ++ idx.length :: a.shape.drop (axis + 1)
    data := (List.range (a.shape.take axis).prod).map (fun o =>
      (idx.map (fun j =>
        (List.range inner).map (fun k =>
          a.data.getD (o * (axisLen * inner) + j * inner + k) default))).flatten) |>.flatten }

theorem takeScalar_shape [Inhabited α] (a : NDArray α) (i axis : Nat) :
    (a.takeScalar i axis).shape = a.shape.take axis ++ a.shape.drop (axis + 1) := rfl

theorem takeList_shape [Inhabited α] (a : NDArray α) (idx : List Nat) (axis : Nat) :
    (a.takeList idx axis).shape =
      a.shape.take axis ++ idx.length :: a.shape.drop (axis + 1) := rfl

end NDArray

/-- The `_type` tag of a flexible-mesh geometry, as far as `dataarray.py`
inspects it: `DfsuFileType.DfsuSpectral1D`, `DfsuSpectral2D`, a layered
type (`_GeometryFMLayered` subclass) or a plain 2d mesh. -/
inductive DfsuType where
  | standard
  | layered
  | spectral1d
  | spectral2d
deriving DecidableEq, Repr

/-- State of a `GeometryFM` object as consumed by `dataarray.py`:
an element table (node indices per element), the node count, and the
subtype tag. -/
structure FMGeometry where
  dtype : DfsuType
  elementTable : List (List Nat)
  nNodes : Nat
deriving DecidableEq, Repr

/-- Number of elements of the mesh (`geometry.n_elements`). -/
def FMGeometry.nElements (g : FMGeometry) : Nat := g.elementTable.length

/-- Whether the mesh is spectral (`geometry.is_spectral`). -/
def FMGeometry.isSpectral (g : FMGeometry) : Bool :=
  g.dtype == DfsuType.spectral1d || g.dtype == DfsuType.spectral2d

/-- The geometry variants dispatched on by `dataarray.py`:
`GeometryUndefined`, the grids, point geometries produced by collapsing
selections, `GeometryFMPointSpectrum`, and `GeometryFM` (with its layered
and spectral subclasses folded into the `DfsuType` tag). -/
inductive Geometry where
  | undefined
  | point
  | grid1d (nx : Nat)
  | grid2d (ny nx : Nat)
  | grid3d (nz ny nx : Nat)
  | fmPointSpectrum
  | fm (g : FMGeometry)
deriving DecidableEq, Repr

/-- The Python class of a geometry object, used to embed
`type(self.geometry) != type(other.geometry)` in `_is_compatible`:
the `fm` constructor covers four distinct Python classes, separated by
the `DfsuType` tag. -/
inductive PyGeomClass where
  | undefined
  | point
  | grid1d
  | grid2d
  | grid3d
  | fmPointSpectrum
  | fm
  | fmLayered
  | fmLineSpectrum
  | fmAreaSpectrum
deriving DecidableEq, Repr

def Geometry.pyClass : Geometry → PyGeomClass
  | .undefined => .undefined
  | .point => .point
  | .grid1d _ => .grid1d
  | .grid2d _ _ => .grid2d
  | .grid3d _ _ _ => .grid3d
  | .fmPointSpectrum => .fmPointSpectrum
  | .fm g =>
    match g.dtype with
    | .standard => .fm
    | .layered => .fmLayered
    | .spectral1d => .fmLineSpectrum
    | .spectral2d => .fmAreaSpectrum

/-- Whether the geometry is an instance of `_GeometryFMLayered`. -/
def Geometry.isLayeredFM : Geometry → Bool
  | .fm g => g.dtype == DfsuType.layered
  | _ => false

/-- Modelled from the spec: `GeometryFM._get_nodes_and_table_for_elements`
lives in the geometry classes, which are not under src/.  Per spec section
4.2, resolving element indices "recomputes the surviving node set": the
node ids referenced by the selected elements, each node once. -/
def getNodesForElements (g : Geometry) (elems : List Nat) : List Nat :=
  match g with
  | .fm fmg => ((elems.map (fun e => fmg.elementTable.getD e [])).flatten).dedup
  | _ => []

/-- Modelled from the spec: which geometries support index-based
subsetting (`hasattr(self.geometry, "isel")`); spec section 6 lists `isel`
in the geometry capability interface, and section 4.2 falls back to
undefined "if the geometry has no subsetting support". -/
def Geometry.hasIsel : Geometry → Bool
  | .fm _ => true
  | .grid1d _ => true
  | .grid2d _ _ => true
  | _ => false

/-- Modelled from the spec: `Geometry.isel(idx, axis)` of the geometry
classes, which are not under src/.  Spec section 4.2: a spatial selection
delegates to the geometry's own index-based subsetting; a singleton
selection collapses the geometry to a point; for a flexible mesh, element
subsetting keeps the selected elements and re-keys the node table to the
surviving node set. -/
def Geometry.isel (g : Geometry) (idx : List Nat) (axis : Nat) : Geometry :=
  match g with
  | .fm fmg =>
    if axis != 0 then .undefined
    else if idx.length == 1 then .point
    else .fm { dtype := fmg.dtype
               elementTable := idx.map (fun e => fmg.elementTable.getD e [])
               nNodes := (getNodesForElements (.fm fmg) idx).length }
  | .grid1d _ => if idx.length == 1 then .point else .grid1d idx.length
  | .grid2d ny nx =>
    if axis == 0 then
      if idx.length == 1 then .grid1d nx else .grid2d idx.length nx
    else
      if idx.length == 1 then .grid1d ny else .grid2d ny idx.length
  | _ => .undefined

/-- A labeled array: the state of a `DataArray` object.  `α` is the
element type of the value buffer, `β` the element type of the elevation
array `zn` (kept separate because comparison operators produce a
`Bool`-valued buffer while passing `zn` through unchanged). -/
structure DataArray (α β : Type) where
  values : NDArray α
  time : List Int
  dims : List String
  geometry : Geometry
  zn : Option (NDArray β)
  item : ItemInfo
deriving DecidableEq, Repr

/-- Embedding of `DataArray._guess_dims` (dataarray.py lines 745-784):
infer dimension names from rank, shape, time-step count and geometry. -/
def guessDims (ndim : Nat) (shape : List Nat) (nTimesteps : Nat) (g : Geometry) :
    List String :=
  let timeIsFirst := nTimesteps > 1 || (shape.headD 0 == 1 && nTimesteps == 1)
  let dims0 : List String := if timeIsFirst then ["time"] else []
  let ndimNoTime := if dims0.isEmpty then ndim else ndim - 1
  dims0 ++
    match g with
    | .fmPointSpectrum =>
      (if ndimNoTime == 1 then ["frequency"] else []) ++
      (if ndimNoTime == 2 then ["direction", "frequency"] else [])
    | .fm fmg =>
      (if fmg.dtype == DfsuType.spectral1d then
        (if ndimNoTime > 0 then ["node"] else [])
      else
        (if ndimNoTime > 0 then ["element"] else [])) ++
      (if fmg.isSpectral then
        (if ndimNoTime == 2 then ["frequency"]
         else if ndimNoTime == 3 then ["direction", "frequency"]
         else [])
      else [])
    | .grid1d _ => ["x"]
    | .grid2d _ _ => ["y", "x"]
    | _ =>
      (if ndimNoTime > 2 then ["z"] else []) ++
      (if ndimNoTime > 1 then ["y"] else []) ++
      (if ndimNoTime > 0 then ["x"] else [])

/-- Embedding of `DataArray._parse_dims` (dataarray.py lines 731-743):
explicit dims are validated (rank match, "time" first if present, "time"
required when more than one timestep), otherwise dims are guessed. -/
def parseDims (shape : List Nat) (nTimesteps : Nat) (g : Geometry)
    (dims? : Option (List String)) : Except String (List String) :=
  match dims? with
  | none => .ok (guessDims shape.length shape nTimesteps g)
  | some dims =>
    if shape.length != dims.length then
      .error "Number of named dimensions does not equal data ndim"
    else if dims.contains "time" && dims.headD "" != "time" then
      .error "time must be first dimension if present!"
    else if nTimesteps > 1 && !(dims.contains "time") then
      .error "time missing from named dimensions"
    else .ok dims

/-- Embedding of the assertions of `DataArray._parse_geometry`
(dataarray.py lines 806-850); the non-fatal missing-geometry warning is
dropped, the shape/geometry cross-checks are kept. -/
def checkGeometry (g : Geometry) (dims : List String) (shape : List Nat) :
    Except String Unit :=
  let axis := if dims.contains "time" then 1 else 0
  if dims.length == 1 && dims.headD "" == "time" then .ok ()
  else
    match g with
    | .fmPointSpectrum => .ok ()
    | .fm fmg =>
      if fmg.isSpectral then
        if fmg.dtype == DfsuType.spectral1d then
          if shape.getD axis 0 == fmg.nNodes then .ok ()
          else .error "data shape does not match number of nodes"
        else
          if shape.getD axis 0 == fmg.nElements then .ok ()
          else .error "data shape does not match number of elements"
      else
        if shape.getD axis 0 == fmg.nElements then .ok ()
        else .error "data shape does not match number of elements"
    | .grid1d nx =>
      if shape.getD axis 0 == nx then .ok ()
      else .error "data shape does not match number of grid points"
    | .grid2d ny nx =>
      if shape.getD axis 0 != ny then .error "data shape does not match ny"
      else if shape.getD (axis + 1) 0 != nx then .error "data shape does not match nx"
      else .ok ()
    | _ => .ok ()

/-- Embedding of `DataArray._parse_zn` (dataarray.py lines 852-867). -/
def checkZn (zn : Option (NDArray β)) (g : Geometry) (nTimesteps : Nat) :
    Except String Unit :=
  match zn with
  | none => .ok ()
  | some z =>
    match g with
    | .fm fmg =>
      if fmg.dtype == DfsuType.layered then
        if nTimesteps > 1 && z.shape.headD 0 != nTimesteps then
          .error "zn has wrong shape. First dimension should be of size n_timesteps"
        else if z.shape.getLastD 0 != fmg.nNodes then
          .error "zn has wrong shape. Last dimension should be of size n_nodes"
        else .ok ()
      else .error "zn can only be provided for layered dfsu data"
    | _ => .error "zn can only be provided for layered dfsu data"

/-- Embedding of `DataArray.__init__` (dataarray.py lines 695-716):
parse/guess dims, check the time length against the data shape
(`_check_time_data_length`), default the item, run the geometry and zn
validations, and store the fields. -/
def mkDataArray (data : NDArray α) (time : List Int) (item : Option ItemInfo)
    (geometry : Geometry) (zn : Option (NDArray β)) (dims? : Option (List String)) :
    Except String (DataArray α β) :=
  match parseDims data.shape time.length geometry dims? with
  | .error e => .error e
  | .ok dims =>
    if dims.contains "time" && time.length != data.shape.headD 0 then
      .error "Number of timesteps does not fit with data shape"
    else
      match checkGeometry geometry dims data.shape with
      | .error e => .error e
      | .ok _ =>
        match checkZn zn geometry time.length with
        | .error e => .error e
        | .ok _ =>
          .ok { values := data, time := time, dims := dims, geometry := geometry
                zn := zn, item := item.getD defaultItem }


/-- An `axis` argument of `isel` / `aggregate`: an integer position or an
axis name (including the tokens "time" and "space"). -/
inductive AxisSpec where
  | int (n : Nat)
  | name (s : String)
deriving DecidableEq, Repr

/-- A resolved axis: a single position, or a tuple of positions (produced
by the "space" token). -/
inductive ParsedAxis where
  | single (n : Nat)
  | multi (ns : List Nat)
deriving DecidableEq, Repr

/-- The resolved axis as the value handed to the numpy reduction's `axis`
keyword (an int becomes a one-element list here, a tuple stays a list). -/
def ParsedAxis.toList : ParsedAxis → List Nat
  | .single n => [n]
  | .multi ns => ns

/-- Modelled from the spec: `DataUtilsMixin._parse_axis` is not under
src/.  Spec sections 4.2 and 4.4: the literal token "time" resolves to 0
and "space" to all axes except time, as a tuple; any other name resolves
to its position in the current dims tuple and names absent from dims are
rejected; an integer stands for itself. -/
def parseAxis (dims : List String) (axis : AxisSpec) : Except String ParsedAxis :=
  match axis with
  | .int n => .ok (.single n)
  | .name s =>
    if s == "time" then .ok (.single 0)
    else if s == "space" then
      .ok (.multi ((List.range dims.length).filter (fun i => dims.getD i "" != "time")))
    else
      match dims.findIdx? (fun d => d == s) with
      | some i => .ok (.single i)
      | none => .error (s ++ " is not present in dims")

/-- Axis resolution as used by `isel`, which indexes `self.shape` with the
result: a tuple-valued resolution (the "space" token over several axes)
cannot index a shape tuple and fails, as the corresponding subscript does
in Python. -/
def parseAxisSingle (dims : List String) (axis : AxisSpec) : Except String Nat :=
  match parseAxis dims axis with
  | .error e => .error e
  | .ok (.single n) => .ok n
  | .ok (.multi _) => .error "tuple axis cannot index shape"

/-- Modelled from the spec: `DataUtilsMixin._axis_to_spatial_axis` is not
under src/.  The spatial axis handed to the geometry is the buffer axis
with the time axis (dims position 0) discounted when present. -/
def axisToSpatialAxis (dims : List String) (axis : Nat) : Nat :=
  if dims.contains "time" then axis - 1 else axis

/-- A Python `slice(start, stop, step)` object. -/
structure PySlice where
  start : Option Int
  stop : Option Int
  step : Option Int
deriving DecidableEq, Repr

/-- Embedding of `list(range(*s.indices(len)))`: the CPython
`PySlice_AdjustIndices` clamping followed by `range`.  A zero step (a
`ValueError` in Python) is mapped to the empty list; the verified
properties only concern slices with a non-zero step. -/
def PySlice.resolve (s : PySlice) (len : Nat) : List Nat :=
  let L : Int := (len : Int)
  let step : Int := s.step.getD 1
  if step = 0 then []
  else
    let lower : Int := if step < 0 then -1 else 0
    let upper : Int := if step < 0 then L - 1 else L
    let adj : Option Int → Int → Int := fun v dflt =>
      match v with
      | none => dflt
      | some v =>
        if v < 0 then (if v + L < lower then lower else v + L)
        else (if v > upper then upper else v)
    let start := adj s.start (if step < 0 then upper else lower)
    let stop := adj s.stop (if step < 0 then lower else upper)
    let n : Nat :=
      if step > 0 then
        (if start < stop then ((stop - start - 1) / step + 1).toNat else 0)
      else
        (if stop < start then ((start - stop - 1) / (-step) + 1).toNat else 0)
    (List.range n).map (fun k => (start + step * (k : Int)).toNat)

/-- An `idx` argument of `isel`: `None`, a scalar, an index list, or a
slice. -/
inductive IselIdx where
  | none
  | scalar (i : Nat)
  | list (l : List Nat)
  | slice (s : PySlice)
deriving DecidableEq, Repr

/-- The index normalization of `isel` (dataarray.py lines 1234-1241):
slices are expanded against the axis length, `None` and empty index sets
signal the empty result (`Option.none` here), and a scalar becomes the
one-element list that `np.atleast_1d` produces. -/
def resolveIdx (idx : IselIdx) (axisLen : Nat) : Option (List Nat) :=
  match idx with
  | .none => none
  | .scalar i => some [i]
  | .list l => if l.isEmpty then none else some l
  | .slice s =>
    let l := s.resolve axisLen
    if l.isEmpty then none else some l


/-- Core of `DataArray.isel` (dataarray.py lines 1243-1275) after axis
resolution and index normalization, for a non-empty index list `l`.
A singleton index collapses the axis out of dims and the buffer; the time
axis slices `time` and `zn`'s leading axis and keeps the geometry; a
spatial axis delegates to the geometry's subsetting and, when the
resulting geometry is layered, re-keys `zn`'s trailing axis to the node
set of the selected elements (`self._zn[:, node_ids]`; Python raises here
when `self._zn` is `None`, embedded as an error). -/
def DataArray.iselCore [Inhabited α] [Inhabited β] (da : DataArray α β)
    (ax : Nat) (l : List Nat) : Except String (DataArray α β) :=
  let single := l.length == 1
  let i0 := l.headD 0
  let dims := if single then da.dims.eraseIdx ax else da.dims
  let dat := if single then da.values.takeScalar i0 ax else da.values.takeList l ax
  if ax == 0 && da.dims.headD "" == "time" then
    mkDataArray dat
      (if single then [da.time.getD i0 0] else l.map (fun i => da.time.getD i 0))
      (some da.item) da.geometry
      (da.zn.map (fun z => if single then z.takeScalar i0 0 else z.takeList l 0))
      (some dims)
  else
    let geometry :=
      if da.geometry.hasIsel then da.geometry.isel l (axisToSpatialAxis da.dims ax)
      else Geometry.undefined
    if geometry.isLayeredFM then
      match da.zn with
      | none => .error "zn is None"
      | some z =>
        mkDataArray dat da.time (some da.item) geometry
          (some (z.takeList (getNodesForElements da.geometry l) 1)) (some dims)
    else
      mkDataArray dat da.time (some da.item) geometry none (some dims)

/-- Embedding of `DataArray.isel` (dataarray.py lines 1129-1275) in its
positional form (`idx` plus `axis`; the keyword form resolves to the same
call).  `Option.none` in the result is Python's `return None` for an empty
index set. -/
def DataArray.isel [Inhabited α] [Inhabited β] (da : DataArray α β)
    (idx : IselIdx) (axis : AxisSpec) : Except String (Option (DataArray α β)) :=
  match parseAxisSingle da.dims axis with
  | .error e => .error e
  | .ok ax =>
    match resolveIdx idx (da.values.shape.getD ax 0) with
    | none => .ok none
    | some l =>
      match da.iselCore ax l with
      | .error e => .error e
      | .ok res => .ok (some res)

/-- The time-axis step of `DataArray.__getitem__` (dataarray.py lines
1086-1094): when a key component addresses the time dimension, the label
is resolved to a time-index list by the external helper
`DataUtilsMixin._get_time_idx_list` (represented here by its result `k`),
an empty resolution raises `IndexError("No timesteps found!")`, and a
non-empty one is forwarded to `isel` on the time axis. -/
def DataArray.getitemTimeStep [Inhabited α] [Inhabited β] (da : DataArray α β)
    (k : List Nat) : Except String (Option (DataArray α β)) :=
  if k.isEmpty then .error "No timesteps found!"
  else da.isel (.list k) (.name "time")

/-- Embedding of `DataArray._has_time_axis` (dataarray.py lines 1018-1020):
the first character of the first dimension name is compared to "t". -/
def DataArray.hasTimeAxis (da : DataArray α β) : Bool :=
  (da.dims.headD "").front == 't'

/-- Embedding of `DataArray.dropna` (dataarray.py lines 1022-1033).
`isNan` stands for `np.isnan` on the element type; a time step is kept
when not all of its values are NaN, and the kept steps are selected with
`isel` on axis 0. -/
def DataArray.dropna [Inhabited α] [Inhabited β] (isNan : α → Bool)
    (da : DataArray α β) : Except String (Option (DataArray α β)) :=
  if !da.hasTimeAxis then .error "Not available if no time axis!"
  else
    let inner := (da.values.shape.drop 1).prod
    let idx := (List.range (da.values.shape.headD 0)).filter (fun i =>
      !(((da.values.data.drop (i * inner)).take inner).all isNan))
    da.isel (.list idx) (.int 0)

/-- Modelled from the spec: `DataUtilsMixin._time_by_agg_axis` is not
under src/.  Spec section 4.4: time becomes `time[0:1]` when the time axis
(axis 0) is reduced away, else it is unchanged. -/
def timeByAggAxis (time : List Int) (pax : ParsedAxis) : List Int :=
  match pax with
  | .single 0 => time.take 1
  | .single _ => time
  | .multi ns => if ns.contains 0 then time.take 1 else time

/-- Embedding of `DataArray.aggregate` (dataarray.py lines 1877-1929).
`func` stands for the numpy reduction handed in by the caller (it receives
the raw buffer and the resolved axis list and is otherwise opaque), and
`nameOverride` for the optional `name` keyword.  Axis 0 keeps geometry and
reduces `zn` to its first time step (`self._zn[0]`); any other resolved
axis drops geometry and `zn`. -/
def DataArray.aggregate [Inhabited α] [Inhabited β] (da : DataArray α β)
    (axis : AxisSpec) (func : NDArray α → List Nat → NDArray α)
    (nameOverride : Option String) : Except String (DataArray α β) :=
  match parseAxis da.dims axis with
  | .error e => .error e
  | .ok pax =>
    let time := timeByAggAxis da.time pax
    let dims :=
      match pax with
      | .single n => (da.dims.enum.filter (fun p => p.1 != n)).map Prod.snd
      | .multi ns => (da.dims.enum.filter (fun p => !(ns.contains p.1))).map Prod.snd
    let item :=
      match nameOverride with
      | some n => ItemInfo.mk n da.item.type da.item.unit
      | none => da.item
    let data := func da.values pax.toList
    match pax with
    | .single 0 =>
      mkDataArray data time (some item) da.geometry
        (da.zn.map (fun z => z.takeScalar 0 0)) (some dims)
    | _ =>
      mkDataArray data time (some item) Geometry.undefined none (some dims)

/-- The `other` operand of a binary math or comparison operator: a bare
scalar, a plain array (array-like but not a `DataArray`), or another
`DataArray`. -/
inductive Operand (α β : Type) where
  | scalar (x : α)
  | array (a : NDArray α)
  | da (d : DataArray α β)
deriving DecidableEq, Repr

/-- The raw values extracted from the operand
(`other.values if hasattr(other, "values") else other`). -/
def Operand.toValues : Operand α β → Sum α (NDArray α)
  | .scalar x => .inl x
  | .array a => .inr a
  | .da d => .inr d.values

/-- The numpy ufunc identity that `_keep_EUM_after_math_operation`
compares `func` against; each operator passes its own ufunc (`__add__`
passes `np.add`, `__sub__` passes `np.subtract`, and so on; no operator
passes `np.sum`). -/
inductive NpFunc where
  | add
  | subtract
  | multiply
  | divide
  | floorDivide
  | mod
  | power
  | sum
deriving DecidableEq, Repr

/-- Embedding of `DataArray._keep_EUM_after_math_operation` (dataarray.py
lines 2090-2106): an array-like operand keeps the EUM only for
`np.subtract`/`np.sum`, and between two `DataArray`s only when type and
unit agree; a scalar operand always keeps it. -/
def DataArray.keepEUMAfterMathOperation (self : DataArray α β)
    (other : Operand α β) (func : NpFunc) : Bool :=
  match other with
  | .scalar _ => true
  | .array _ =>
    if func == NpFunc.subtract || func == NpFunc.sum then true else false
  | .da o =>
    if func == NpFunc.subtract || func == NpFunc.sum then
      self.item.type == o.item.type && self.item.unit == o.item.unit
    else false

/-- The display name of the right operand used when the item is
downgraded (`other.name if hasattr(other, "name") else "array"`). -/
def Operand.displayName : Operand α β → String
  | .da o => o.item.name
  | _ => "array"

/-- The elementwise application `func(self.values, other_values)` of a
binary numpy ufunc, with `ev` its elementwise action; broadcasting is
modelled for a scalar operand and for an equal-shape array operand, and
any numpy failure surfaces as the blanket `ValueError` of the Python
`except` clause in `_apply_math_operation`. -/
def mathBroadcast [Inhabited α] (v : NDArray α) (other : Operand α β)
    (ev : α → α → α) : Except String (NDArray α) :=
  match other.toValues with
  | .inl x => .ok ⟨v.shape, v.data.map (fun w => ev w x)⟩
  | .inr a =>
    if v.shape == a.shape then .ok ⟨v.shape, List.zipWith ev v.data a.data⟩
    else .error "Math operation could not be applied to DataArray"

/-- The item of the result of `_apply_math_operation`: kept when
`_keep_EUM_after_math_operation` says so, else downgraded to an
undefined-type item named "<left> <op> <right>". -/
def mathResultItem (self : DataArray α β) (other : Operand α β) (func : NpFunc)
    (txt : String) : ItemInfo :=
  if self.keepEUMAfterMathOperation other func then self.item
  else ItemInfo.mk (self.item.name ++ " " ++ txt ++ " " ++ other.displayName)
    EUMType.Undefined EUMUnit.undefined

/-- Embedding of `DataArray._apply_math_operation` (dataarray.py lines
2068-2088).  The result is a copy of the left operand whose values are
replaced through the shape-checked values setter, and whose item is kept
or downgraded per `_keep_EUM_after_math_operation`. -/
def DataArray.applyMathOperation [Inhabited α] [Inhabited β]
    (self : DataArray α β) (other : Operand α β) (func : NpFunc) (txt : String)
    (ev : α → α → α) : Except String (DataArray α β) :=
  match mathBroadcast self.values other ev with
  | .error e => .error e
  | .ok data =>
    if data.shape != self.values.shape then .error "Shape of new data is wrong"
    else .ok { self with values := data, item := mathResultItem self other func txt }

/-- Embedding of `DataArray.__sub__` (dataarray.py line 2027). -/
def DataArray.sub [Inhabited α] [Inhabited β] (self : DataArray α β)
    (other : Operand α β) (ev : α → α → α) : Except String (DataArray α β) :=
  self.applyMathOperation other NpFunc.subtract "-" ev

/-- Embedding of `DataArray.__add__` (dataarray.py line 2021). -/
def DataArray.addOp [Inhabited α] [Inhabited β] (self : DataArray α β)
    (other : Operand α β) (ev : α → α → α) : Except String (DataArray α β) :=
  self.applyMathOperation other NpFunc.add "+" ev

/-- The boolean mask `self.values <op> other_values` of a comparison
operator, with `f` the elementwise comparison; modelled for a scalar
operand and for an equal-shape array operand. -/
def cmpBroadcast (v : NDArray α) (other : Operand α β) (f : α → α → Bool) :
    Except String (NDArray Bool) :=
  match other.toValues with
  | .inl x => .ok ⟨v.shape, v.data.map (fun w => f w x)⟩
  | .inr a =>
    if v.shape == a.shape then .ok ⟨v.shape, List.zipWith f v.data a.data⟩
    else .error "operands could not be broadcast together"

/-- Embedding of the comparison operators `__lt__`/`__gt__`/`__le__`/
`__ge__`/`__eq__`/`__ne__` (dataarray.py lines 2110-2145): the boolean
mask is handed to `_boolmask_to_new_DataArray`, which rebuilds a
`DataArray` from the mask, time, a fresh "Boolean" item, the geometry and
`zn` - with no `dims` argument, so the constructor re-guesses dims. -/
def DataArray.cmp [Inhabited β] (self : DataArray α β) (f : α → α → Bool)
    (other : Operand α β) : Except String (DataArray Bool β) :=
  match cmpBroadcast self.values other f with
  | .error e => .error e
  | .ok bmask =>
    mkDataArray bmask self.time
      (some (ItemInfo.mk "Boolean" EUMType.Undefined EUMUnit.undefined))
      self.geometry self.zn none

/-- The `zn` comparison of `_is_compatible` (dataarray.py lines 885-894):
sizes plus first and last flattened element. -/
def znProblem [DecidableEq β] (self other : DataArray α β) : Bool :=
  match self.zn with
  | none => false
  | some za =>
    match other.zn with
    | none => true
    | some zb =>
      za.shape != zb.shape || za.data.head? != zb.data.head? ||
        za.data.getLast? != zb.data.getLast?

/-- Embedding of `DataArray._is_compatible` (dataarray.py lines 869-902)
with `raise_error=False`: the problem list is assembled and the result is
its emptiness.  The geometry-content check is translated verbatim,
including the self-against-self comparison
(`if not (self.geometry == self.geometry)`). -/
def DataArray.isCompatible [DecidableEq α] [DecidableEq β]
    (self other : DataArray α β) : Bool :=
  let problems : List String :=
    (if self.values.shape != other.values.shape then
      ["shape of data must be the same"] else []) ++
    (if self.time.length != other.time.length then
      ["Number of timesteps must be the same"] else []) ++
    (if self.time.head? != other.time.head? then
      ["start_time must be the same"] else []) ++
    (if self.geometry.pyClass != other.geometry.pyClass then
      ["The type of geometry must be the same"] else []) ++
    (if !(self.geometry == self.geometry) then
      ["The geometries must be the same"] else []) ++
    (if znProblem self other then ["zn must be the same"] else []) ++
    (if self.dims != other.dims then
      ["Dimension names (dims) must be the same"] else [])
  problems.isEmpty

/-- Element count exposed by a geometry (`geometry.n_elements`, 0 for
geometries without elements). -/
def Geometry.elementCount : Geometry → Nat
  | .fm g => g.nElements
  | _ => 0

/-- Boolean success test for an `Except` computation. -/
def exceptOk : Except String γ → Bool
  | .ok _ => true
  | .error _ => false

instance {ε γ : Type} [DecidableEq ε] [DecidableEq γ] : DecidableEq (Except ε γ) :=
  fun a b =>
    match a, b with
    | .error e, .error f =>
      if h : e = f then isTrue (by rw [h]) else isFalse (by intro hh; cases hh; exact h rfl)
    | .error _, .ok _ => isFalse (fun h => Except.noConfusion h)
    | .ok _, .error _ => isFalse (fun h => Except.noConfusion h)
    | .ok x, .ok y =>
      if h : x = y then isTrue (by rw [h]) else isFalse (by intro hh; cases hh; exact h rfl)

/-- The dimension-guessing rule as the claim words it (time leading iff
more than one step or a leading singleton axis with exactly one step, then
canonical trailing names per geometry variant, with the spectral trailing
order "frequency then direction").  Written from the claim, for the
refinement comparison against `guessDims`. -/
def specGuessDimsClaimed (ndim : Nat) (shape : List Nat) (nTimesteps : Nat)
    (g : Geometry) : List String :=
  let timeIsFirst := nTimesteps > 1 || (shape.headD 0 == 1 && nTimesteps == 1)
  let r := if timeIsFirst then ndim - 1 else ndim
  (if timeIsFirst then ["time"] else []) ++
    match g with
    | .fmPointSpectrum =>
      if r == 1 then ["frequency"]
      else if r == 2 then ["frequency", "direction"]
      else []
    | .fm fmg =>
      (if fmg.dtype == DfsuType.spectral1d then
        (if r > 0 then ["node"] else [])
      else (if r > 0 then ["element"] else [])) ++
      (if fmg.isSpectral then
        (if r == 2 then ["frequency"]
         else if r == 3 then ["frequency", "direction"]
         else [])
      else [])
    | .grid1d _ => ["x"]
    | .grid2d _ _ => ["y", "x"]
    | _ => ["z", "y", "x"].drop (3 - min r 3)

/-- The dimension-guessing rule as the claim words it, amended only in the
spectral trailing order: the code appends "direction" before "frequency"
for two spectral dimensions, not "frequency" before "direction". -/
def specGuessDimsAmended (ndim : Nat) (shape : List Nat) (nTimesteps : Nat)
    (g : Geometry) : List String :=
  let timeIsFirst := nTimesteps > 1 || (shape.headD 0 == 1 && nTimesteps == 1)
  let r := if timeIsFirst then ndim - 1 else ndim
  (if timeIsFirst then ["time"] else []) ++
    match g with
    | .fmPointSpectrum =>
      if r == 1 then ["frequency"]
      else if r == 2 then ["direction", "frequency"]
      else []
    | .fm fmg =>
      (if fmg.dtype == DfsuType.spectral1d then
        (if r > 0 then ["node"] else [])
      else (if r > 0 then ["element"] else [])) ++
      (if fmg.isSpectral then
        (if r == 2 then ["frequency"]
         else if r == 3 then ["direction", "frequency"]
         else [])
      else [])
    | .grid1d _ => ["x"]
    | .grid2d _ _ => ["y", "x"]
    | _ => ["z", "y", "x"].drop (3 - min r 3)

theorem parseDims_some_ok {shape : List Nat} {nT : Nat} {g : Geometry}
    {d d' : List String} (h : parseDims shape nT g (some d) = .ok d') : d' = d := by
  simp only [parseDims] at h
  split at h
  · simp_all
  · split at h
    · simp_all
    · split at h
      · simp_all
      · simp_all

theorem mkDataArray_ok {α β : Type} {data : NDArray α} {time : List Int}
    {item : Option ItemInfo} {geometry : Geometry} {zn : Option (NDArray β)}
    {dims : List String} {res : DataArray α β}
    (h : mkDataArray data time item geometry zn (some dims) = .ok res) :
    res.values = data ∧ res.time = time ∧ res.dims = dims ∧
      res.geometry = geometry ∧ res.zn = zn ∧ res.item = item.getD defaultItem := by
  unfold mkDataArray at h
  split at h
  · simp_all
  next dims' hp =>
    obtain rfl : dims' = dims := parseDims_some_ok hp
    split at h
    · simp_all
    · split at h
      · simp_all
      · split at h
        · simp_all
        · simp only [Except.ok.injEq] at h
          rw [← h]
          exact ⟨rfl, rfl, rfl, rfl, rfl, rfl⟩

theorem mkDataArray_ok_guess {α β : Type} {data : NDArray α} {time : List Int}
    {item : Option ItemInfo} {geometry : Geometry} {zn : Option (NDArray β)}
    {res : DataArray α β}
    (h : mkDataArray data time item geometry zn none = .ok res) :
    res.values = data ∧ res.time = time ∧
      res.dims = guessDims data.shape.length data.shape time.length geometry ∧
      res.geometry = geometry ∧ res.zn = zn ∧ res.item = item.getD defaultItem := by
  simp only [mkDataArray, parseDims] at h
  split at h
  · simp_all
  · split at h
    · simp_all
    · split at h
      · simp_all
      · simp only [Except.ok.injEq] at h
        rw [← h]
        exact ⟨rfl, rfl, rfl, rfl, rfl, rfl⟩

theorem isel_ok_elim {α β : Type} [Inhabited α] [Inhabited β]
    {da : DataArray α β} {idx : IselIdx} {axis : AxisSpec} {ax : Nat}
    {l : List Nat} {res : DataArray α β}
    (hax : parseAxisSingle da.dims axis = .ok ax)
    (hres : resolveIdx idx (da.values.shape.getD ax 0) = some l)
    (h : da.isel idx axis = .ok (some res)) :
    da.iselCore ax l = .ok res := by
  unfold DataArray.isel at h
  rw [hax] at h
  simp only [hres] at h
  cases hc : da.iselCore ax l with
  | error e => rw [hc] at h; simp at h
  | ok r => rw [hc] at h; simp only [Except.ok.injEq, Option.some.injEq] at h; rw [h]

theorem iselCore_ok_main {α β : Type} [Inhabited α] [Inhabited β]
    {da : DataArray α β} {ax : Nat} {l : List Nat} {res : DataArray α β}
    (h : da.iselCore ax l = .ok res) :
    res.dims = (if l.length == 1 then da.dims.eraseIdx ax else da.dims) ∧
      res.values = (if l.length == 1 then da.values.takeScalar (l.headD 0) ax
        else da.values.takeList l ax) ∧
      res.item = da.item := by
  simp only [DataArray.iselCore] at h
  by_cases hc : (ax == 0 && da.dims.headD "" == "time") = true
  · rw [if_pos hc] at h
    obtain ⟨hv, -, hd, -, -, hi⟩ := mkDataArray_ok h
    exact ⟨hd, hv, hi⟩
  · rw [if_neg hc] at h
    by_cases hl : (if da.geometry.hasIsel = true
        then da.geometry.isel l (axisToSpatialAxis da.dims ax)
        else Geometry.undefined).isLayeredFM = true
    · rw [if_pos hl] at h
      cases hzn : da.zn with
      | none => rw [hzn] at h; exact Except.noConfusion h
      | some z =>
        rw [hzn] at h
        obtain ⟨hv, -, hd, -, -, hi⟩ := mkDataArray_ok h
        exact ⟨hd, hv, hi⟩
    · rw [if_neg hl] at h
      obtain ⟨hv, -, hd, -, -, hi⟩ := mkDataArray_ok h
      exact ⟨hd, hv, hi⟩

theorem iselCore_ok_time {α β : Type} [Inhabited α] [Inhabited β]
    {da : DataArray α β} {ax : Nat} {l : List Nat} {res : DataArray α β}
    (hcond : (ax == 0 && da.dims.headD "" == "time") = true)
    (h : da.iselCore ax l = .ok res) :
    res.time = (if l.length == 1 then [da.time.getD (l.headD 0) 0]
       else l.map (fun i => da.time.getD i 0)) ∧
      res.geometry = da.geometry ∧
      res.zn = da.zn.map (fun z =>
        if l.length == 1 then z.takeScalar (l.headD 0) 0 else z.takeList l 0) := by
  simp only [DataArray.iselCore] at h
  rw [if_pos hcond] at h
  obtain ⟨-, ht, -, hg, hz, -⟩ := mkDataArray_ok h
  exact ⟨ht, hg, hz⟩

theorem iselCore_ok_spatial_layered {α β : Type} [Inhabited α] [Inhabited β]
    {da : DataArray α β} {ax : Nat} {l : List Nat} {res : DataArray α β}
    {z : NDArray β}
    (hcond : (ax == 0 && da.dims.headD "" == "time") = false)
    (hhas : da.geometry.hasIsel = true)
    (hlay : (da.geometry.isel l (axisToSpatialAxis da.dims ax)).isLayeredFM = true)
    (hzn : da.zn = some z)
    (h : da.iselCore ax l = .ok res) :
    res.geometry = da.geometry.isel l (axisToSpatialAxis da.dims ax) ∧
      res.zn = some (z.takeList (getNodesForElements da.geometry l) 1) ∧
      res.time = da.time := by
  simp only [DataArray.iselCore] at h
  rw [if_neg (by rw [hcond]; decide), if_pos hhas] at h
  rw [if_pos hlay, hzn] at h
  obtain ⟨-, ht, -, hg, hz, -⟩ := mkDataArray_ok h
  exact ⟨hg, hz, ht⟩

theorem enumFrom_filter_ne {γ : Type} (n : Nat) :
    ∀ (l : List γ) (k : Nat),
      ((List.enumFrom k l).filter (fun p => p.1 != n)).map Prod.snd
        = if n < k then l else l.eraseIdx (n - k)
  | [], k => by simp [List.eraseIdx]
  | a :: l, k => by
    simp only [List.enumFrom, List.filter_cons]
    by_cases hk : k = n
    · subst hk
      simp only [bne_self_eq_false, Bool.false_eq_true, if_false]
      rw [enumFrom_filter_ne k l (k + 1), if_pos (Nat.lt_succ_self k),
        if_neg (lt_irrefl k), Nat.sub_self]
      rfl
    · have hbk : (k != n) = true := by simpa using hk
      simp only [hbk, if_true, List.map_cons]
      rw [enumFrom_filter_ne n l (k + 1)]
      rcases Nat.lt_trichotomy n k with hlt | heq | hgt
      · rw [if_pos (Nat.lt_succ_of_lt hlt), if_pos hlt]
      · exact absurd heq.symm hk
      · rw [if_neg (by omega), if_neg (by omega),
          show n - k = (n - (k + 1)) + 1 from by omega]
        rfl

theorem enum_filter_ne {γ : Type} (n : Nat) (l : List γ) :
    ((l.enum.filter (fun p => p.1 != n)).map Prod.snd) = l.eraseIdx n := by
  have h := enumFrom_filter_ne n l 0
  simpa [List.enum] using h

theorem enumFrom_filter_length {γ : Type} (q : Nat → Bool) :
    ∀ (l : List γ) (k : Nat),
      (((List.enumFrom k l).filter (fun p => q p.1)).map Prod.snd).length
        = ((List.range' k l.length).filter q).length
  | [], _ => rfl
  | a :: l, k => by
    simp only [List.enumFrom, List.length_cons,
      show List.range' k (l.length + 1) = k :: List.range' (k + 1) l.length from rfl,
      List.filter_cons]
    cases hq : q k <;> simp [enumFrom_filter_length q l (k + 1)]

theorem length_filter_not_add {γ : Type} (p : γ → Bool) (l : List γ) :
    (l.filter (fun a => !(p a))).length + (l.filter p).length = l.length := by
  induction l with
  | nil => rfl
  | cons a l ih => cases hp : p a <;> simp [List.filter_cons, hp] <;> omega

theorem range_contains_filter_eq (m : Nat) (q : Nat → Bool) (i : Nat)
    (hi : i ∈ List.range m) :
    ((List.range m).filter q).contains i = q i := by
  cases hq : q i
  · simp only [List.contains, Bool.eq_false_iff, ne_eq, List.elem_iff,
      List.mem_filter, hq]
    simp
  · simp only [List.contains, List.elem_iff, List.mem_filter]
    simp [hi, hq]

theorem aggregate_ok_elim {α β : Type} [Inhabited α] [Inhabited β]
    {da : DataArray α β} {axis : AxisSpec}
    {func : NDArray α → List Nat → NDArray α} {nameOverride : Option String}
    {pax : ParsedAxis} {res : DataArray α β}
    (hax : parseAxis da.dims axis = .ok pax)
    (h : da.aggregate axis func nameOverride = .ok res) :
    res.time = timeByAggAxis da.time pax ∧
      res.dims = (match pax with
        | .single n => (da.dims.enum.filter (fun p => p.1 != n)).map Prod.snd
        | .multi ns => (da.dims.enum.filter (fun p => !(ns.contains p.1))).map Prod.snd) ∧
      res.values = func da.values pax.toList ∧
      (pax = .single 0 →
        res.geometry = da.geometry ∧ res.zn = da.zn.map (fun z => z.takeScalar 0 0)) ∧
      (pax ≠ .single 0 → res.geometry = Geometry.undefined ∧ res.zn = none) := by
  unfold DataArray.aggregate at h
  rw [hax] at h
  cases pax with
  | single n =>
    cases n with
    | zero =>
      obtain ⟨hv, ht, hd, hg, hz, -⟩ := mkDataArray_ok h
      exact ⟨ht, hd, hv, fun _ => ⟨hg, hz⟩, fun hne => absurd rfl hne⟩
    | succ m =>
      obtain ⟨hv, ht, hd, hg, hz, -⟩ := mkDataArray_ok h
      exact ⟨ht, hd, hv, fun h0 => by simp at h0, fun _ => ⟨hg, hz⟩⟩
  | multi ns =>
    obtain ⟨hv, ht, hd, hg, hz, -⟩ := mkDataArray_ok h
    exact ⟨ht, hd, hv, fun h0 => by simp at h0, fun _ => ⟨hg, hz⟩⟩

/-! Claim theorems.  Each claim of the specification gets one theorem (plus
a witness instantiating it on a concrete array when it has hypotheses, and
a counterexample where the claim as stated fails on the code). -/

/-- C1: for every valid single-axis `isel` selection, a resolved index set
with exactly one element collapses the selected axis out of `dims` and
drops the corresponding buffer axis, while a resolved index set with more
than one element keeps the axis with its length reduced to the index
count; on the time axis the resulting time length is 1 respectively the
index count (so `arr.isel(0, axis="time")` on a `(time, x)` array of shape
(5, 3) yields dims `("x",)`, shape `(3,)` and a length-1 time). -/
theorem isel_collapse_or_preserve {α β : Type} [Inhabited α] [Inhabited β]
    {da : DataArray α β} {idx : IselIdx} {axis : AxisSpec} {ax : Nat}
    {l : List Nat} {res : DataArray α β}
    (hax : parseAxisSingle da.dims axis = .ok ax)
    (hres : resolveIdx idx (da.values.shape.getD ax 0) = some l)
    (hlt : ax < da.values.shape.length)
    (hok : da.isel idx axis = .ok (some res)) :
    (l.length = 1 →
      res.dims = da.dims.eraseIdx ax ∧
      res.values.shape = da.values.shape.eraseIdx ax ∧
      (ax = 0 → da.dims.headD "" = "time" → res.time.length = 1)) ∧
    (1 < l.length →
      res.dims = da.dims ∧
      res.values.shape = da.values.shape.set ax l.length ∧
      (ax = 0 → da.dims.headD "" = "time" → res.time.length = l.length)) := by
  have hcore := isel_ok_elim hax hres hok
  obtain ⟨hd, hv, -⟩ := iselCore_ok_main hcore
  constructor
  · intro h1
    have hb : (l.length == 1) = true := by simp [h1]
    simp only [hb, if_true] at hd hv
    refine ⟨hd, ?_, ?_⟩
    · rw [hv, NDArray.takeScalar_shape]
      exact (List.eraseIdx_eq_take_drop_succ _ _).symm
    · intro h0 hT
      have hcond : (ax == 0 && da.dims.headD "" == "time") = true := by
        rw [h0, hT]
        decide
      obtain ⟨ht, -, -⟩ := iselCore_ok_time hcond hcore
      simp only [hb, if_true] at ht
      rw [ht]
      rfl
  · intro h1
    have hb : (l.length == 1) = false := by
      simp only [beq_eq_false_iff_ne, ne_eq]
      omega
    simp only [hb, Bool.false_eq_true, if_false] at hd hv
    refine ⟨hd, ?_, ?_⟩
    · rw [hv, NDArray.takeList_shape]
      exact (List.set_eq_take_cons_drop _ hlt).symm
    · intro h0 hT
      have hcond : (ax == 0 && da.dims.headD "" == "time") = true := by
        rw [h0, hT]
        decide
      obtain ⟨ht, -, -⟩ := iselCore_ok_time hcond hcore
      simp only [hb, Bool.false_eq_true, if_false] at ht
      rw [ht, List.length_map]

/-- Concrete scenario A of the spec: dims `("time", "x")`, five time
steps, values of shape (5, 3). -/
def scenarioA : DataArray Int Int :=
  { values := ⟨[5, 3], [0, 1, 2, 3, 4, 5, 6, 7, 8, 9, 10, 11, 12, 13, 14]⟩
    time := [0, 1, 2, 3, 4]
    dims := ["time", "x"]
    geometry := .undefined
    zn := none
    item := defaultItem }

/-- The result of `scenarioA.isel(0, axis="time")`. -/
def scenarioARes : DataArray Int Int :=
  { values := ⟨[3], [0, 1, 2]⟩
    time := [0]
    dims := ["x"]
    geometry := .undefined
    zn := none
    item := defaultItem }

/-- Witness for C1 at concrete scenario A. -/
theorem isel_collapse_or_preserve_witness :
    scenarioA.isel (.scalar 0) (.name "time") = .ok (some scenarioARes) ∧
      scenarioARes.dims = ["x"] ∧ scenarioARes.values.shape = [3] ∧
      scenarioARes.time.length = 1 := by
  have hok : scenarioA.isel (.scalar 0) (.name "time") = .ok (some scenarioARes) := by
    decide
  have h := @isel_collapse_or_preserve Int Int _ _ scenarioA (.scalar 0)
    (.name "time") 0 [0] scenarioARes (by decide) (by decide) (by decide) hok
  exact ⟨hok, (h.1 rfl).1, (h.1 rfl).2.1, (h.1 rfl).2.2 rfl rfl⟩

/-- C2: for a layered flexible-mesh array with an elevation array of
shape (n_timesteps, n_nodes), `isel` on the element axis with a
multi-element index list re-keys the elevation: its trailing axis is
sliced to exactly the recomputed node set of the surviving elements (not
the full node count), so the resulting elevation shape is
(n_timesteps, n_unique_nodes_of_selected_elements), and the result
geometry's element count equals the number of selected elements. -/
theorem isel_element_rekeys_elevation {α β : Type} [Inhabited α] [Inhabited β]
    {da : DataArray α β} {elems : List Nat} {ax : Nat} {z : NDArray β}
    {fmg : FMGeometry} {res : DataArray α β}
    (hg : da.geometry = .fm fmg)
    (hlay : fmg.dtype = DfsuType.layered)
    (hzn : da.zn = some z)
    (hzsh : z.shape = [da.time.length, fmg.nNodes])
    (hax : parseAxisSingle da.dims (.name "element") = .ok ax)
    (hnt : (ax == 0 && da.dims.headD "" == "time") = false)
    (hsp : axisToSpatialAxis da.dims ax = 0)
    (hm : 1 < elems.length)
    (hok : da.isel (.list elems) (.name "element") = .ok (some res)) :
    res.zn = some (z.takeList (getNodesForElements da.geometry elems) 1) ∧
      (z.takeList (getNodesForElements da.geometry elems) 1).shape =
        [da.time.length, (getNodesForElements da.geometry elems).length] ∧
      res.geometry.elementCount = elems.length ∧
      res.time = da.time := by
  have hne : elems ≠ [] := by intro hh; rw [hh] at hm; simp at hm
  have hres : resolveIdx (.list elems) (da.values.shape.getD ax 0) = some elems := by
    simp [resolveIdx, hne]
  have hcore := isel_ok_elim hax hres hok
  have hb1 : (elems.length == 1) = false := by
    simp only [beq_eq_false_iff_ne, ne_eq]
    omega
  have hgeo : da.geometry.isel elems (axisToSpatialAxis da.dims ax) =
      .fm ⟨fmg.dtype, elems.map (fun e => fmg.elementTable.getD e []),
        (getNodesForElements (.fm fmg) elems).length⟩ := by
    rw [hsp, hg]
    simp [Geometry.isel, hb1]
  have hhas : da.geometry.hasIsel = true := by rw [hg]; rfl
  have hlay2 : (da.geometry.isel elems (axisToSpatialAxis da.dims ax)).isLayeredFM
      = true := by
    rw [hgeo]
    simp [Geometry.isLayeredFM, hlay]
  obtain ⟨hge, hz, ht⟩ := iselCore_ok_spatial_layered hnt hhas hlay2 hzn hcore
  refine ⟨hz, ?_, ?_, ht⟩
  · rw [NDArray.takeList_shape, hzsh]
    rfl
  · rw [hge, hgeo]
    simp [Geometry.elementCount, FMGeometry.nElements]

/-- Concrete layered-mesh array for C2: three triangular elements over
five nodes, two time steps, elevation of shape (2, 5). -/
def scenarioC : DataArray Int Int :=
  { values := ⟨[2, 3], [10, 11, 12, 20, 21, 22]⟩
    time := [0, 1]
    dims := ["time", "element"]
    geometry := .fm ⟨.layered, [[0, 1, 2], [1, 2, 3], [2, 3, 4]], 5⟩
    zn := some ⟨[2, 5], [0, 1, 2, 3, 4, 5, 6, 7, 8, 9]⟩
    item := defaultItem }

/-- The result of `scenarioC.isel([0, 1], axis="element")`: elements 0 and
1 reference the four distinct nodes 0, 1, 2, 3, so the elevation trailing
axis shrinks from 5 to 4. -/
def scenarioCRes : DataArray Int Int :=
  { values := ⟨[2, 2], [10, 11, 20, 21]⟩
    time := [0, 1]
    dims := ["time", "element"]
    geometry := .fm ⟨.layered, [[0, 1, 2], [1, 2, 3]], 4⟩
    zn := some ⟨[2, 4], [0, 1, 2, 3, 5, 6, 7, 8]⟩
    item := defaultItem }

/-- Witness for C2 at the concrete layered scenario. -/
theorem isel_element_rekeys_elevation_witness :
    scenarioC.isel (.list [0, 1]) (.name "element") = .ok (some scenarioCRes) ∧
      scenarioCRes.zn = some ⟨[2, 4], [0, 1, 2, 3, 5, 6, 7, 8]⟩ ∧
      scenarioCRes.geometry.elementCount = 2 ∧
      scenarioCRes.time = scenarioC.time := by
  have hok : scenarioC.isel (.list [0, 1]) (.name "element")
      = .ok (some scenarioCRes) := by decide
  have h := @isel_element_rekeys_elevation Int Int _ _ scenarioC [0, 1] 1
    ⟨[2, 5], [0, 1, 2, 3, 4, 5, 6, 7, 8, 9]⟩
    ⟨.layered, [[0, 1, 2], [1, 2, 3], [2, 3, 4]], 5⟩ scenarioCRes
    (by decide) (by decide) (by decide) (by decide) (by decide) (by decide)
    (by decide) (by decide) hok
  exact ⟨hok, h.1.trans (by decide), h.2.2.1, h.2.2.2⟩

theorem space_dims_length (dims : List String) :
    ((dims.enum.filter (fun p =>
        !(((List.range dims.length).filter
            (fun i => dims.getD i "" != "time")).contains p.1))).map Prod.snd).length
      = dims.length
        - ((List.range dims.length).filter
            (fun i => dims.getD i "" != "time")).length := by
  have h1 := enumFrom_filter_length (fun i =>
    !(((List.range dims.length).filter
        (fun i => dims.getD i "" != "time")).contains i)) dims 0
  have h2 : (List.range' 0 dims.length) = List.range dims.length :=
    (List.range_eq_range' _).symm
  rw [h2] at h1
  have hcong : (List.range dims.length).filter (fun i =>
      !(((List.range dims.length).filter
          (fun i => dims.getD i "" != "time")).contains i))
      = (List.range dims.length).filter (fun i => !(dims.getD i "" != "time")) :=
    List.filter_congr (fun i hi => by
      rw [range_contains_filter_eq dims.length _ i hi])
  have h3 := length_filter_not_add (fun i => dims.getD i "" != "time")
    (List.range dims.length)
  have h5 : (List.range dims.length).length = dims.length := List.length_range _
  have henum : dims.enum = List.enumFrom 0 dims := rfl
  rw [henum, h1, hcong]
  omega

/-- C3 (amended): `aggregate` removes the resolved axis (or, for the
"space" token, every non-time axis) from `dims`, so the result rank drops
by one (or by the tuple length); reducing the time axis yields
`time[0:1]`, keeps the geometry verbatim and reduces the elevation to its
first time step `zn[0]` (the claim's "elevation preserved verbatim" is
amended here); reducing any other axis downgrades the geometry to
undefined and the elevation to `None`. -/
theorem aggregate_axis_bookkeeping {α β : Type} [Inhabited α] [Inhabited β]
    {da : DataArray α β} {axis : AxisSpec}
    {func : NDArray α → List Nat → NDArray α} {nameOverride : Option String}
    {pax : ParsedAxis} {res : DataArray α β}
    (hax : parseAxis da.dims axis = .ok pax)
    (hok : da.aggregate axis func nameOverride = .ok res) :
    (∀ n, pax = .single n → n < da.dims.length →
      res.dims = da.dims.eraseIdx n ∧ res.dims.length = da.dims.length - 1) ∧
    (∀ ns, pax = .multi ns → axis = .name "space" →
      res.dims.length = da.dims.length - ns.length) ∧
    (pax = .single 0 →
      res.time = da.time.take 1 ∧ res.geometry = da.geometry ∧
        res.zn = da.zn.map (fun z => z.takeScalar 0 0)) ∧
    (pax ≠ .single 0 → res.geometry = Geometry.undefined ∧ res.zn = none) := by
  obtain ⟨ht, hd, -, hg0, hgelse⟩ := aggregate_ok_elim hax hok
  refine ⟨?_, ?_, ?_, hgelse⟩
  · rintro n rfl hn
    have hd' : res.dims = (da.dims.enum.filter (fun p => p.1 != n)).map Prod.snd := hd
    rw [hd', enum_filter_ne n da.dims]
    exact ⟨rfl, List.length_eraseIdx_of_lt hn⟩
  · rintro ns rfl hsp
    have hd' : res.dims
        = (da.dims.enum.filter (fun p => !(ns.contains p.1))).map Prod.snd := hd
    have hspace : parseAxis da.dims (.name "space")
        = .ok (.multi ((List.range da.dims.length).filter
            (fun i => da.dims.getD i "" != "time"))) := rfl
    rw [hsp, hspace] at hax
    simp only [Except.ok.injEq, ParsedAxis.multi.injEq] at hax
    rw [hd', ← hax, space_dims_length]
  · intro h0
    refine ⟨?_, (hg0 h0).1, (hg0 h0).2⟩
    rw [ht, h0]
    rfl

/-- A stand-in reduction function with numpy's output-shape contract
(the reduced axes are removed from the shape); `aggregate` receives the
caller's reduction and is otherwise indifferent to the values it
computes. -/
def aggFunc : NDArray Int → List Nat → NDArray Int := fun a axes =>
  let outShape := (a.shape.enum.filter (fun p => !(axes.contains p.1))).map Prod.snd
  ⟨outShape, List.replicate outShape.prod 0⟩

/-- Counterexample to C3 as stated: reducing the time axis does not
preserve the elevation verbatim - `aggregate` stores `zn[0]`, the
first-time-step slice, so the elevation of shape (2, 5) comes out with
shape (5), different from the input elevation. -/
theorem aggregate_zn_not_verbatim_cex :
    (scenarioC.aggregate (.name "time") aggFunc none).map (fun r => r.zn)
        = .ok (some ⟨[5], [0, 1, 2, 3, 4]⟩) ∧
      (some (⟨[5], [0, 1, 2, 3, 4]⟩ : NDArray Int) ≠ scenarioC.zn) := by
  constructor
  · decide
  · decide

/-- The result of `scenarioC.aggregate(axis="time", func=aggFunc)`. -/
def scenarioCAgg : DataArray Int Int :=
  { values := ⟨[3], [0, 0, 0]⟩
    time := [0]
    dims := ["element"]
    geometry := scenarioC.geometry
    zn := some ⟨[5], [0, 1, 2, 3, 4]⟩
    item := defaultItem }

/-- The result of `scenarioC.aggregate(axis="space", func=aggFunc)`. -/
def scenarioCAggSpace : DataArray Int Int :=
  { values := ⟨[2], [0, 0]⟩
    time := [0, 1]
    dims := ["time"]
    geometry := .undefined
    zn := none
    item := defaultItem }

/-- Witness for the amended C3 at the concrete layered scenario, for both
the "time" axis and the "space" tuple. -/
theorem aggregate_axis_bookkeeping_witness :
    scenarioC.aggregate (.name "time") aggFunc none = .ok scenarioCAgg ∧
      scenarioCAgg.dims = ["element"] ∧ scenarioCAgg.time = [0] ∧
      scenarioCAgg.geometry = scenarioC.geometry ∧
      scenarioCAgg.zn = some ⟨[5], [0, 1, 2, 3, 4]⟩ ∧
      scenarioC.aggregate (.name "space") aggFunc none = .ok scenarioCAggSpace ∧
      scenarioCAggSpace.dims.length = scenarioC.dims.length - 1 ∧
      scenarioCAggSpace.geometry = Geometry.undefined ∧
      scenarioCAggSpace.zn = none := by
  have hok1 : scenarioC.aggregate (.name "time") aggFunc none = .ok scenarioCAgg := by
    decide
  have hok2 : scenarioC.aggregate (.name "space") aggFunc none
      = .ok scenarioCAggSpace := by decide
  have h1 := @aggregate_axis_bookkeeping Int Int _ _ scenarioC (.name "time")
    aggFunc none (.single 0) scenarioCAgg (by decide) hok1
  have h2 := @aggregate_axis_bookkeeping Int Int _ _ scenarioC (.name "space")
    aggFunc none (.multi [1]) scenarioCAggSpace (by decide) hok2
  refine ⟨hok1, ?_, (h1.2.2.1 rfl).1, (h1.2.2.1 rfl).2.1,
    (h1.2.2.1 rfl).2.2.trans (by decide), hok2, ?_, (h2.2.2.2 (by decide)).1,
    (h2.2.2.2 (by decide)).2⟩
  · exact ((h1.1 0 rfl (by decide)).1).trans (by decide)
  · exact (h2.2.1 [1] rfl rfl).trans (by decide)

theorem guessDims_eq_specAmended (ndim : Nat) (shape : List Nat) (nT : Nat)
    (g : Geometry) :
    guessDims ndim shape nT g = specGuessDimsAmended ndim shape nT g := by
  have trailingGrid : ∀ r : Nat,
      ((if r > 2 then ["z"] else []) ++ (if r > 1 then ["y"] else [])
          ++ (if r > 0 then ["x"] else []))
        = List.drop (3 - min r 3) ["z", "y", "x"] := by
    intro r
    rcases r with _ | _ | _ | n
    · rfl
    · rfl
    · rfl
    · simp [show n + 3 > 2 from by omega, show n + 3 > 1 from by omega,
        show n + 3 > 0 from by omega, show 3 - min (n + 3) 3 = 0 from by omega]
  have trailingPS : ∀ r : Nat,
      ((if r == 1 then ["frequency"] else [])
          ++ (if r == 2 then ["direction", "frequency"] else []))
        = (if r == 1 then ["frequency"]
           else if r == 2 then ["direction", "frequency"] else []) := by
    intro r
    rcases r with _ | _ | _ | n <;> rfl
  unfold guessDims specGuessDimsAmended
  by_cases htf : (nT > 1 || (shape.headD 0 == 1 && nT == 1)) = true
  · simp only [htf, if_true, List.isEmpty_cons, Bool.false_eq_true, if_false]
    cases g <;> simp only [trailingGrid, trailingPS]
  · simp only [Bool.not_eq_true] at htf
    simp only [htf, Bool.false_eq_true, if_false, List.isEmpty_nil, if_true,
      List.nil_append]
    cases g <;> simp only [trailingGrid, trailingPS]

/-- C4 (amended): a `DataArray` constructed without an explicit dims
argument infers its dimension names exactly as the claim describes - time
leading iff more than one timestep or a leading raw axis of length 1 with
exactly one timestep, then the canonical trailing names per geometry
variant - except that the two spectral trailing dimensions are appended
in the order "direction" then "frequency" (not "frequency" then
"direction" as claimed). -/
theorem guess_dims_amended {α β : Type} {data : NDArray α} {time : List Int}
    {item : Option ItemInfo} {geometry : Geometry} {zn : Option (NDArray β)}
    {res : DataArray α β}
    (h : mkDataArray data time item geometry zn none = .ok res) :
    res.dims = specGuessDimsAmended data.shape.length data.shape
      time.length geometry := by
  obtain ⟨-, -, hd, -, -, -⟩ := mkDataArray_ok_guess h
  rw [hd, guessDims_eq_specAmended]

/-- Counterexample to C4 as stated: a two-dimensional point-spectrum
array constructed without dims gets dims `("direction", "frequency")`
from the code, while the claim's trailing order "frequency then
direction" would give `("frequency", "direction")`. -/
theorem guess_dims_order_cex :
    (mkDataArray (α := Int) (β := Int) ⟨[4, 5], List.replicate 20 0⟩ [0] none
        Geometry.fmPointSpectrum none none).map (fun r => r.dims)
      = .ok ["direction", "frequency"] ∧
      specGuessDimsClaimed 2 [4, 5] 1 Geometry.fmPointSpectrum
        = ["frequency", "direction"] ∧
      (["direction", "frequency"] : List String) ≠ ["frequency", "direction"] := by
  refine ⟨by decide, by decide, by decide⟩

/-- A point-spectrum array constructed without a dims argument. -/
def scenarioPS : DataArray Int Int :=
  { values := ⟨[1, 4, 5], List.replicate 20 0⟩
    time := [0]
    dims := ["time", "direction", "frequency"]
    geometry := .fmPointSpectrum
    zn := none
    item := defaultItem }

/-- Witness for the amended C4: constructing a (1, 4, 5) point-spectrum
buffer with a single timestep and no dims argument infers
`("time", "direction", "frequency")`, matching the amended rule. -/
theorem guess_dims_amended_witness :
    mkDataArray (α := Int) (β := Int) ⟨[1, 4, 5], List.replicate 20 0⟩ [0] none
        Geometry.fmPointSpectrum none none = .ok scenarioPS ∧
      scenarioPS.dims = ["time", "direction", "frequency"] := by
  have hok : mkDataArray (α := Int) (β := Int) ⟨[1, 4, 5], List.replicate 20 0⟩ [0]
      none Geometry.fmPointSpectrum none none = .ok scenarioPS := by decide
  have h := guess_dims_amended hok
  exact ⟨hok, h.trans (by decide)⟩

theorem applyMathOperation_ok_elim {α β : Type} [Inhabited α] [Inhabited β]
    {self : DataArray α β} {other : Operand α β} {func : NpFunc} {txt : String}
    {ev : α → α → α} {res : DataArray α β}
    (hok : self.applyMathOperation other func txt ev = .ok res) :
    res.item = mathResultItem self other func txt ∧
      res.time = self.time ∧ res.dims = self.dims ∧
      res.geometry = self.geometry ∧ res.zn = self.zn := by
  unfold DataArray.applyMathOperation at hok
  split at hok
  · exact Except.noConfusion hok
  · split at hok
    · exact Except.noConfusion hok
    · simp only [Except.ok.injEq] at hok
      rw [← hok]
      exact ⟨rfl, rfl, rfl, rfl, rfl⟩

/-- C5 (amended): a binary math operation keeps the left operand's item
(hence its type and unit) iff the operand is a bare scalar, or the ufunc
is `np.subtract` and the operand is array-like but not a `DataArray`, or
it is `np.subtract` between two `DataArray`s with identical type and
unit; every other operator/operand combination (including addition of two
`DataArray`s with identical type and unit, since `__add__` passes
`np.add`) downgrades the item to an undefined-type item named
"<left> <op> <right>".  No arithmetic operator passes `np.sum`, which the
hypothesis records. -/
theorem math_operation_item_rule {α β : Type} [Inhabited α] [Inhabited β]
    {self : DataArray α β} {other : Operand α β} {func : NpFunc} {txt : String}
    {ev : α → α → α} {res : DataArray α β}
    (hf : func ≠ NpFunc.sum)
    (hok : self.applyMathOperation other func txt ev = .ok res) :
    (self.keepEUMAfterMathOperation other func = true ↔
      ((∃ x, other = .scalar x) ∨
        (func = .subtract ∧ ((∃ a, other = .array a) ∨
          (∃ d, other = .da d ∧ self.item.type = d.item.type ∧
            self.item.unit = d.item.unit))))) ∧
      res.item = (if self.keepEUMAfterMathOperation other func then self.item
        else ItemInfo.mk (self.item.name ++ " " ++ txt ++ " "
            ++ other.displayName) EUMType.Undefined EUMUnit.undefined) := by
  refine ⟨?_, ((applyMathOperation_ok_elim hok).1).trans (by rfl)⟩
  have hsum : (func == NpFunc.sum) = false := by
    simp only [beq_eq_false_iff_ne, ne_eq]
    exact hf
  cases other with
  | scalar x => simp [DataArray.keepEUMAfterMathOperation]
  | array a =>
    simp [DataArray.keepEUMAfterMathOperation, hsum, beq_iff_eq]
  | da d =>
    simp [DataArray.keepEUMAfterMathOperation, hsum, beq_iff_eq, and_assoc]

/-- A one-dimensional water-level array with a concrete type and unit,
for the math-operator metadata claims. -/
def scenario5 : DataArray Int Int :=
  { values := ⟨[3], [1, 2, 3]⟩
    time := [0, 1, 2]
    dims := ["time"]
    geometry := .undefined
    zn := none
    item := ⟨"WL", .WaterLevel, .meter⟩ }

/-- Counterexample to C5 as stated: subtracting a plain array (array-like
but not a DataArray) keeps the left operand's type and unit, although the
claim allows preservation only for subtraction between two DataArrays
with identical type and unit or for a bare scalar operand. -/
theorem math_keeps_eum_for_plain_array_cex :
    (scenario5.sub (.array ⟨[3], [1, 1, 1]⟩) (fun a b => a - b)).map
        (fun r => r.item)
      = .ok ⟨"WL", EUMType.WaterLevel, EUMUnit.meter⟩ ∧
      (⟨"WL", EUMType.WaterLevel, EUMUnit.meter⟩ : ItemInfo).type
        ≠ EUMType.Undefined := by
  exact ⟨by decide, by decide⟩

/-- The result of `scenario5 - scenario5`. -/
def scenario5Sub : DataArray Int Int :=
  { values := ⟨[3], [0, 0, 0]⟩
    time := [0, 1, 2]
    dims := ["time"]
    geometry := .undefined
    zn := none
    item := ⟨"WL", .WaterLevel, .meter⟩ }

/-- The result of `scenario5 + scenario5`. -/
def scenario5Add : DataArray Int Int :=
  { values := ⟨[3], [2, 4, 6]⟩
    time := [0, 1, 2]
    dims := ["time"]
    geometry := .undefined
    zn := none
    item := ⟨"WL + WL", .Undefined, .undefined⟩ }

/-- Witness for the amended C5: self-subtraction keeps the item, while
addition of the same two arrays (identical type and unit) downgrades it
to an undefined-type composite name. -/
theorem math_operation_item_rule_witness :
    scenario5.sub (.da scenario5) (fun a b => a - b) = .ok scenario5Sub ∧
      scenario5Sub.item = scenario5.item ∧
      scenario5.addOp (.da scenario5) (fun a b => a + b) = .ok scenario5Add ∧
      scenario5Add.item = ⟨"WL + WL", .Undefined, .undefined⟩ := by
  have hok1 : scenario5.applyMathOperation (.da scenario5) NpFunc.subtract "-"
      (fun a b => a - b) = .ok scenario5Sub := by decide
  have hok2 : scenario5.applyMathOperation (.da scenario5) NpFunc.add "+"
      (fun a b => a + b) = .ok scenario5Add := by decide
  have h1 := math_operation_item_rule (by decide) hok1
  have h2 := math_operation_item_rule (by decide) hok2
  exact ⟨hok1, h1.2.trans (by decide), hok2, h2.2.trans (by decide)⟩

theorem cmpBroadcast_ok_shape {α β : Type} {v : NDArray α} {other : Operand α β}
    {f : α → α → Bool} {m : NDArray Bool}
    (h : cmpBroadcast v other f = .ok m) : m.shape = v.shape := by
  unfold cmpBroadcast at h
  split at h
  · simp only [Except.ok.injEq] at h
    rw [← h]
  · split at h
    · simp only [Except.ok.injEq] at h
      rw [← h]
    · exact Except.noConfusion h

/-- C6 (amended): every comparison operator yields a boolean-valued
`DataArray` whose shape, geometry, elevation and time equal the left
operand's, with the item renamed to the generic "Boolean" label - but the
dims are NOT copied from the left operand: `_boolmask_to_new_DataArray`
passes no dims, so they are re-inferred by the dimension-guessing rule
from the mask shape, the timestep count and the geometry, and can differ
from the left operand's dims. -/
theorem cmp_result_properties {α β : Type} [Inhabited β]
    {self : DataArray α β} {f : α → α → Bool} {other : Operand α β}
    {res : DataArray Bool β}
    (hok : self.cmp f other = .ok res) :
    res.values.shape = self.values.shape ∧
      res.geometry = self.geometry ∧ res.zn = self.zn ∧ res.time = self.time ∧
      res.item = ItemInfo.mk "Boolean" EUMType.Undefined EUMUnit.undefined ∧
      res.dims = guessDims self.values.shape.length self.values.shape
        self.time.length self.geometry := by
  unfold DataArray.cmp at hok
  split at hok
  · exact Except.noConfusion hok
  next m hm =>
    have hsh := cmpBroadcast_ok_shape hm
    obtain ⟨hv, ht, hd, hg, hz, hi⟩ := mkDataArray_ok_guess hok
    refine ⟨?_, hg, hz, ht, hi, ?_⟩
    · rw [hv, hsh]
    · rw [hd, hsh]

/-- A time-invariant array with dims `("y", "x")` and a singleton leading
axis, constructible with explicit dims. -/
def scenario6 : DataArray Int Int :=
  { values := ⟨[1, 3], [1, 2, 3]⟩
    time := [0]
    dims := ["y", "x"]
    geometry := .undefined
    zn := none
    item := defaultItem }

/-- Counterexample to C6 as stated: comparing the `("y", "x")` array of
shape (1, 3) against a scalar produces a result whose dims are re-guessed
as `("time", "x")` (the singleton leading axis is taken to be time), not
the left operand's `("y", "x")`. -/
theorem cmp_dims_not_copied_cex :
    mkDataArray (α := Int) (β := Int) ⟨[1, 3], [1, 2, 3]⟩ [0] none .undefined none
        (some ["y", "x"]) = .ok scenario6 ∧
      (scenario6.cmp (fun v x => decide (v < x)) (.scalar 5)).map (fun r => r.dims)
        = .ok ["time", "x"] ∧
      scenario6.dims = ["y", "x"] ∧
      (["time", "x"] : List String) ≠ ["y", "x"] := by
  exact ⟨by decide, by decide, by decide, by decide⟩

/-- The result of `scenario6 < 5`. -/
def scenario6Res : DataArray Bool Int :=
  { values := ⟨[1, 3], [true, true, true]⟩
    time := [0]
    dims := ["time", "x"]
    geometry := .undefined
    zn := none
    item := ⟨"Boolean", .Undefined, .undefined⟩ }

/-- Witness for the amended C6 at the concrete comparison `scenario6 < 5`. -/
theorem cmp_result_properties_witness :
    scenario6.cmp (fun v x => decide (v < x)) (.scalar 5) = .ok scenario6Res ∧
      scenario6Res.values.shape = scenario6.values.shape ∧
      scenario6Res.geometry = scenario6.geometry ∧
      scenario6Res.zn = scenario6.zn ∧
      scenario6Res.item = ItemInfo.mk "Boolean" EUMType.Undefined EUMUnit.undefined ∧
      scenario6Res.dims = ["time", "x"] := by
  have hok : scenario6.cmp (fun v x => decide (v < x)) (.scalar 5)
      = .ok scenario6Res := by decide
  have h := cmp_result_properties hok
  exact ⟨hok, h.1, h.2.1, h.2.2.1, h.2.2.2.2.1, h.2.2.2.2.2.trans (by decide)⟩

/-- C7: a selection whose resolved index set is empty yields the
empty-result signal (`None`) rather than an error - `isel` with an empty
index list, with `None`, or with a slice resolving to no indices returns
`None` - except when the empty set arises from a time-label lookup inside
`__getitem__`, which raises "No timesteps found!". -/
theorem empty_selection_signals {α β : Type} [Inhabited α] [Inhabited β]
    (da : DataArray α β) (axisSpec : AxisSpec) (ax : Nat) (s : PySlice)
    (hax : parseAxisSingle da.dims axisSpec = .ok ax)
    (hs : s.resolve (da.values.shape.getD ax 0) = []) :
    da.isel (.list []) axisSpec = .ok none ∧
      da.isel (.slice s) axisSpec = .ok none ∧
      da.isel .none axisSpec = .ok none ∧
      da.getitemTimeStep [] = .error "No timesteps found!" := by
  refine ⟨?_, ?_, ?_, rfl⟩
  · unfold DataArray.isel
    rw [hax]
    rfl
  · unfold DataArray.isel
    rw [hax]
    simp only [resolveIdx, hs, List.isEmpty_nil, if_true]
  · unfold DataArray.isel
    rw [hax]
    rfl

/-- Witness for C7 at the concrete scenario-A array, with the empty slice
`slice(2, 2)`. -/
theorem empty_selection_signals_witness :
    scenarioA.isel (.list []) (.int 0) = .ok none ∧
      scenarioA.isel (.slice ⟨some 2, some 2, none⟩) (.int 0) = .ok none ∧
      scenarioA.isel .none (.int 0) = .ok none ∧
      scenarioA.getitemTimeStep [] = .error "No timesteps found!" := by
  exact empty_selection_signals scenarioA (.int 0) 0 ⟨some 2, some 2, none⟩
    (by decide) (by decide)

theorem parseDims_err_cases {shape : List Nat} {nT : Nat} {g : Geometry}
    {dims : List String}
    (hbad : (shape.length != dims.length) = true
      ∨ (dims.contains "time" && dims.headD "" != "time") = true
      ∨ (decide (nT > 1) && !(dims.contains "time")) = true) :
    ∃ e, parseDims shape nT g (some dims) = .error e := by
  simp only [parseDims]
  by_cases h1 : (shape.length != dims.length) = true
  · rw [if_pos h1]
    exact ⟨_, rfl⟩
  · rw [if_neg h1]
    by_cases h2 : (dims.contains "time" && dims.headD "" != "time") = true
    · rw [if_pos h2]
      exact ⟨_, rfl⟩
    · rw [if_neg h2]
      by_cases h3 : (decide (nT > 1) && !(dims.contains "time")) = true
      · rw [if_pos h3]
        exact ⟨_, rfl⟩
      · rcases hbad with h | h | h <;> simp_all

theorem mk_err_of_parseDims_err {α β : Type} {data : NDArray α} {time : List Int}
    {item : Option ItemInfo} {g : Geometry} {zn : Option (NDArray β)}
    {dims? : Option (List String)} {e : String}
    (h : parseDims data.shape time.length g dims? = .error e) :
    mkDataArray data time item g zn dims? = .error e := by
  unfold mkDataArray
  rw [h]

/-- C8: constructing a `DataArray` with an explicit dims sequence fails
when the dims count differs from the data rank, or when "time" is present
but not first, or when there is more than one timestep and "time" is
absent; when none of these hold and construction succeeds, the stored
dims are exactly the given sequence. -/
theorem explicit_dims_validation {α β : Type} (data : NDArray α)
    (time : List Int) (item : Option ItemInfo) (g : Geometry)
    (zn : Option (NDArray β)) (dims : List String) :
    (dims.length ≠ data.shape.length →
      exceptOk (mkDataArray data time item g zn (some dims)) = false) ∧
      (dims.contains "time" = true → dims.headD "" ≠ "time" →
        exceptOk (mkDataArray data time item g zn (some dims)) = false) ∧
      (1 < time.length → dims.contains "time" = false →
        exceptOk (mkDataArray data time item g zn (some dims)) = false) ∧
      (∀ res, mkDataArray data time item g zn (some dims) = .ok res →
        res.dims = dims) := by
  refine ⟨?_, ?_, ?_, fun res hok => (mkDataArray_ok hok).2.2.1⟩
  · intro h
    obtain ⟨e, hpd⟩ := parseDims_err_cases (Or.inl (by
      simp only [bne_iff_ne, ne_eq]
      exact fun hh => h hh.symm))
    rw [mk_err_of_parseDims_err hpd]
    rfl
  · intro h1 h2
    obtain ⟨e, hpd⟩ := @parseDims_err_cases data.shape time.length g dims
      (Or.inr (Or.inl (by rw [h1, Bool.true_and]; exact bne_iff_ne.mpr h2)))
    rw [mk_err_of_parseDims_err hpd]
    rfl
  · intro h1 h2
    obtain ⟨e, hpd⟩ := @parseDims_err_cases data.shape time.length g dims
      (Or.inr (Or.inr (by rw [h2]; simp [h1])))
    rw [mk_err_of_parseDims_err hpd]
    rfl

/-- Witness for C8: a rank mismatch, a misplaced "time", and a missing
"time" each fail, while a well-formed dims sequence is stored verbatim. -/
theorem explicit_dims_validation_witness :
    exceptOk (mkDataArray (α := Int) (β := Int) ⟨[2, 3], [1, 2, 3, 4, 5, 6]⟩ [0]
        none .undefined none (some ["x"])) = false ∧
      exceptOk (mkDataArray (α := Int) (β := Int) ⟨[2, 3], [1, 2, 3, 4, 5, 6]⟩ [0]
        none .undefined none (some ["x", "time"])) = false ∧
      exceptOk (mkDataArray (α := Int) (β := Int) ⟨[2, 3], [1, 2, 3, 4, 5, 6]⟩
        [0, 1] none .undefined none (some ["y", "x"])) = false ∧
      (mkDataArray (α := Int) (β := Int) ⟨[2, 3], [1, 2, 3, 4, 5, 6]⟩ [0, 1]
        none .undefined none (some ["time", "x"])).map (fun r => r.dims)
        = .ok ["time", "x"] := by
  refine ⟨?_, ?_, ?_, ?_⟩
  · exact (explicit_dims_validation _ _ _ _ _ _).1 (by decide)
  · exact (explicit_dims_validation _ _ _ _ _ _).2.1 (by decide) (by decide)
  · exact (explicit_dims_validation _ _ _ _ _ _).2.2.1 (by decide) (by decide)
  · decide

/-- C9: `_is_compatible` compares the geometry CONTENT of `self` against
itself (`self.geometry == self.geometry`), not against `other`, so two
arrays agreeing on shape, timestep count, start time, geometry class,
elevation summary (size plus first and last element) and dims are judged
compatible even when their geometries have different contents. -/
theorem isCompatible_ignores_other_geometry {α β : Type}
    [DecidableEq α] [DecidableEq β] (a b : DataArray α β)
    (h1 : a.values.shape = b.values.shape)
    (h2 : a.time.length = b.time.length)
    (h3 : a.time.head? = b.time.head?)
    (h4 : a.geometry.pyClass = b.geometry.pyClass)
    (h5 : znProblem a b = false)
    (h6 : a.dims = b.dims) :
    a.isCompatible b = true := by
  simp [DataArray.isCompatible, h1, h2, h3, h4, h5, h6]

/-- A layered array like `scenarioC` but with a different element table
and different interior elevation values (same elevation shape, first and
last element). -/
def scenario9b : DataArray Int Int :=
  { values := ⟨[2, 3], [10, 11, 12, 20, 21, 22]⟩
    time := [0, 1]
    dims := ["time", "element"]
    geometry := .fm ⟨.layered, [[0, 1, 2], [0, 1, 2], [0, 1, 2]], 5⟩
    zn := some ⟨[2, 5], [0, 5, 5, 5, 5, 5, 5, 5, 5, 9]⟩
    item := defaultItem }

/-- Witness for C9: `scenarioC` and `scenario9b` have different geometry
contents and different elevation values, yet `_is_compatible` judges them
compatible. -/
theorem isCompatible_ignores_other_geometry_witness :
    scenarioC.isCompatible scenario9b = true ∧
      scenarioC.geometry ≠ scenario9b.geometry ∧
      scenarioC.zn ≠ scenario9b.zn := by
  refine ⟨isCompatible_ignores_other_geometry scenarioC scenario9b
    (by decide) (by decide) (by decide) (by decide) (by decide) (by decide),
    by decide, by decide⟩

theorem checkGeometry_undefined (dims : List String) (shape : List Nat) :
    checkGeometry Geometry.undefined dims shape = .ok () := by
  simp [checkGeometry]

/-- C10: the internal time-axis test (`_has_time_axis`) holds iff the
first character of the first dimension name is "t"; consequently `dropna`
raises for an array whose first dimension name does not start with "t",
and succeeds (filtering along axis 0 as if it were time) for an array
whose first dimension name starts with "t" - such as "track" - even
though that dimension is not named "time". -/
theorem has_time_axis_first_char {α β : Type} [Inhabited α] [Inhabited β]
    (isNan : α → Bool) (da : DataArray α β) :
    (da.hasTimeAxis = ((da.dims.headD "").front == 't')) ∧
      ((da.dims.headD "").front ≠ 't' →
        da.dropna isNan = .error "Not available if no time axis!") ∧
      ((da.dims.headD "").front = 't' →
        da.dims.length = da.values.shape.length →
        da.dims.contains "time" = false →
        da.time.length ≤ 1 →
        da.geometry.hasIsel = false →
        ∃ r, da.dropna isNan = .ok r) := by
  refine ⟨rfl, ?_, ?_⟩
  · intro h
    have hb : da.hasTimeAxis = false := by
      simp only [DataArray.hasTimeAxis, beq_eq_false_iff_ne, ne_eq]
      exact h
    unfold DataArray.dropna
    rw [hb]
    rfl
  · intro hT hlen hcont hnt hgeo
    have hb : da.hasTimeAxis = true := by
      simp only [DataArray.hasTimeAxis, beq_iff_eq]
      exact hT
    have hdne : da.dims ≠ [] := by
      intro hnil
      rw [hnil] at hT
      exact absurd hT (by decide)
    obtain ⟨d, rest, hdims⟩ := List.exists_cons_of_ne_nil hdne
    obtain ⟨s0, srest, hshape⟩ : ∃ s0 srest, da.values.shape = s0 :: srest := by
      cases hsh : da.values.shape with
      | nil => rw [hdims, hsh] at hlen; simp at hlen
      | cons s0 srest => exact ⟨s0, srest, rfl⟩
    have hdC : rest.contains "time" = false ∧ ("time" == d) = false := by
      rw [hdims] at hcont
      simp only [List.contains_cons, Bool.or_eq_false_iff] at hcont
      exact ⟨hcont.2, hcont.1⟩
    have hhd : (da.dims.headD "" == "time") = false := by
      rw [hdims]
      simp only [List.headD_cons, beq_eq_false_iff_ne, ne_eq]
      have h2 := hdC.2
      simp only [beq_eq_false_iff_ne, ne_eq] at h2
      exact fun h => h2 h.symm
    have hnt' : decide (da.time.length > 1) = false := by
      simp only [decide_eq_false_iff_not, gt_iff_lt, not_lt]
      exact hnt
    -- the construction at the end of isel succeeds for any data/dims pair
    -- of equal rank without "time"
    have hmk : ∀ (dat : NDArray α) (dims' : List String),
        (dat.shape.length != dims'.length) = false →
        dims'.contains "time" = false →
        mkDataArray (β := β) dat da.time (some da.item) Geometry.undefined none
            (some dims')
          = .ok ⟨dat, da.time, dims', Geometry.undefined, none, da.item⟩ := by
      intro dat dims' hL hC
      have hpd : parseDims dat.shape da.time.length Geometry.undefined (some dims')
          = .ok dims' := by
        simp only [parseDims]
        rw [if_neg (by rw [hL]; exact Bool.false_ne_true),
          if_neg (by rw [hC]; simp), if_neg (by rw [hnt']; simp)]
      simp only [mkDataArray, hpd]
      rw [if_neg (by rw [hC]; simp), checkGeometry_undefined]
      rfl
    have hisel : ∀ idxl : List Nat, ∃ r, da.isel (.list idxl) (.int 0) = .ok r := by
      intro idxl
      unfold DataArray.isel
      rw [show parseAxisSingle da.dims (.int 0) = .ok 0 from rfl]
      cases hres : resolveIdx (.list idxl) (da.values.shape.getD 0 0) with
      | none => exact ⟨none, by simp only [hres]⟩
      | some l =>
        have hstep : da.iselCore 0 l
            = mkDataArray
                (if l.length == 1 then da.values.takeScalar (l.headD 0) 0
                  else da.values.takeList l 0)
                da.time (some da.item) Geometry.undefined none
                (some (if l.length == 1 then da.dims.eraseIdx 0 else da.dims)) := by
          simp only [DataArray.iselCore]
          rw [if_neg (by
            simp only [show ((0 : Nat) == 0) = true from rfl, Bool.true_and]
            rw [hhd]
            exact Bool.false_ne_true)]
          simp only [hgeo, Bool.false_eq_true, if_false]
          rfl
        have hL : ((if l.length == 1 then da.values.takeScalar (l.headD 0) 0
              else da.values.takeList l 0).shape.length
            != (if l.length == 1 then da.dims.eraseIdx 0 else da.dims).length)
            = false := by
          by_cases hone : (l.length == 1) = true
          · simp only [hone, if_true, NDArray.takeScalar_shape]
            rw [hdims, hshape]
            simp only [List.take_zero, List.nil_append, List.drop_succ_cons,
              List.drop_zero, List.eraseIdx_cons_zero]
            rw [hdims, hshape] at hlen
            simp only [List.length_cons] at hlen
            simp [Nat.succ_injective hlen]
          · simp only [hone, Bool.false_eq_true, if_false, NDArray.takeList_shape]
            rw [hshape]
            simp only [List.take_zero, List.nil_append, List.drop_succ_cons,
              List.drop_zero, List.length_cons]
            rw [hdims, hshape] at hlen
            simp only [List.length_cons] at hlen
            simp [hdims, Nat.succ_injective hlen]
        have hC : (if l.length == 1 then da.dims.eraseIdx 0
            else da.dims).contains "time" = false := by
          by_cases hone : (l.length == 1) = true
          · simp only [hone, if_true]
            rw [hdims]
            simpa using hdC.1
          · simp only [hone, Bool.false_eq_true, if_false]
            exact hcont
        refine ⟨some ⟨(if l.length == 1 then da.values.takeScalar (l.headD 0) 0
            else da.values.takeList l 0), da.time,
          (if l.length == 1 then da.dims.eraseIdx 0 else da.dims),
          Geometry.undefined, none, da.item⟩, ?_⟩
        simp only [hres]
        rw [hstep, hmk _ _ hL hC]
    unfold DataArray.dropna
    rw [hb]
    simp only [Bool.not_true, Bool.false_eq_true, if_false]
    exact hisel _

/-- An array whose first dimension is named "track": the initial "t"
satisfies the time-axis test. -/
def scenarioTrack : DataArray Int Int :=
  { values := ⟨[3, 2], [1, 2, 3, 4, 5, 6]⟩
    time := [0]
    dims := ["track", "x"]
    geometry := .undefined
    zn := none
    item := defaultItem }

/-- An array whose first dimension is named "y": no time axis for the
test. -/
def scenarioY : DataArray Int Int :=
  { values := ⟨[3, 2], [1, 2, 3, 4, 5, 6]⟩
    time := [0]
    dims := ["y", "x"]
    geometry := .undefined
    zn := none
    item := defaultItem }

/-- Witness for C10: `dropna` succeeds on the "track" array (treating
axis 0 like time) and raises on the "y" array. -/
theorem has_time_axis_first_char_witness :
    scenarioTrack.hasTimeAxis = true ∧
      (∃ r, scenarioTrack.dropna (fun _ => false) = .ok r) ∧
      scenarioY.hasTimeAxis = false ∧
      scenarioY.dropna (fun _ => false)
        = .error "Not available if no time axis!" := by
  refine ⟨by decide, ?_, by decide, ?_⟩
  · exact (has_time_axis_first_char (fun _ => false) scenarioTrack).2.2
      (by decide) (by decide) (by decide) (by decide) (by decide)
  · exact (has_time_axis_first_char (fun _ => false) scenarioY).2.1 (by decide)

end Mikeio
